import Mathlib

/-!
Shallow embedding of `letterboxd_scraper.py` (class `LetterboxdScraper`).

The scraper is a linear pipeline over HTML pages: enumerate listing pages,
extract film references, fetch each film's detail page, extract fields,
accumulate records deduplicated by slug, and export to CSV.

Modelling choices:
* An HTML document is a tree of elements (`Node`); BeautifulSoup's
  `find` / `find_all` become pre-order searches over descendants, and
  `find_parent` a search over an explicitly carried ancestor chain.
* The network is a function `Net : String → Option Response`; `none`
  models a transport-level exception (timeout, connection error), and a
  `Response` carries an HTTP status and the parsed body.  `requests`'
  `raise_for_status` raises exactly for statuses in `[400, 600)`.
* Python's `str.strip`, `str.split`, `int(...)` and the three regular
  expressions used by the code (`([\d.]+)\s+out of`, `([\d,]+)`, plain
  substring patterns) are modelled by executable character-list functions.
* `str(v / 2.0)` for an integer `v` is modelled by `halfStr`, using the
  exact decimal rendering of a half-integer float.
* Fallible Python code is total here: `try`/`except` bodies become
  `Option`-valued matches, so "never raises" is totality by construction.
-/

/-- Characters matched by Python's regex `\s` (over ASCII input). -/
def isPySpace (c : Char) : Bool :=
  c = ' ' || c = '\t' || c = '\n' || c = '\r' || c = '\x0b' || c = '\x0c'

/-- Model of Python's `str.strip()` (no argument): remove whitespace
from both ends. -/
def pyStrip (s : String) : String :=
  ⟨((s.data.dropWhile isPySpace).reverse.dropWhile isPySpace).reverse⟩

/-- Model of Python's `s.replace(old, new)` for a single-character
pattern and replacement, the only shape the code uses. -/
def pyReplaceChar (old new : Char) (s : String) : String :=
  ⟨s.data.map (fun c => if c = old then new else c)⟩

/-- Characters matched by the regex class `[\d.]`. -/
def isDigitDot (c : Char) : Bool := c.isDigit || c = '.'

/-- Characters matched by the regex class `[\d,]`. -/
def isDigitComma (c : Char) : Bool := c.isDigit || c = ','

/-- Substring test on character lists: models `pat in s` and
`re.search` of a plain (literal) pattern. -/
def containsSub (pat : List Char) : List Char → Bool
  | [] => pat.isEmpty
  | c :: t => pat.isPrefixOf (c :: t) || containsSub pat t

/-- `strContains s pat` models Python's `pat in s`. -/
def strContains (s pat : String) : Bool := containsSub pat.data s.data

/-- Strip a given character from both ends of a string: models
Python's `s.strip('/')` (for a single strip character). -/
def stripChar (c : Char) (s : String) : String :=
  ⟨((s.data.dropWhile (· = c)).reverse.dropWhile (· = c)).reverse⟩

/-- Numeric value of a list of decimal digit characters. -/
def digitsToNat (cs : List Char) : Nat :=
  cs.foldl (fun a c => a * 10 + (c.toNat - 48)) 0

/-- Model of Python's `int(s)`: strip surrounding whitespace, accept an
optional sign followed by one or more decimal digits; `none` models the
`ValueError` raised on any other input. -/
def pyInt (s : String) : Option Int :=
  match (pyStrip s).data with
  | [] => none
  | c :: rest =>
    let sign : Int := if c = '-' then -1 else 1
    let ds : List Char := if c = '-' || c = '+' then rest else c :: rest
    if ds ≠ [] && ds.all (fun d => d.isDigit) then some (sign * digitsToNat ds)
    else none

/-- Leftmost maximal run of characters satisfying `p`: models
`re.search` of a pattern of the shape `([cls]+)` and taking `group(1)`. -/
def firstRun (p : Char → Bool) : List Char → Option (List Char)
  | [] => none
  | c :: t => if p c then some (c :: t.takeWhile p) else firstRun p t

/-- Attempt to match the regex `([\d.]+)\s+out of` at the start of the
input, returning the first capture group. -/
def matchRatingAt (cs : List Char) : Option (List Char) :=
  let run := cs.takeWhile isDigitDot
  if run.isEmpty then none
  else
    let rest := cs.drop run.length
    let ws := rest.takeWhile isPySpace
    if ws.isEmpty then none
    else if ("out of".data).isPrefixOf (rest.drop ws.length) then some run
    else none

/-- `re.search(r'([\d.]+)\s+out of', s)`: try every start position from
the left, returning the first capture group of the first match. -/
def searchRating : List Char → Option (List Char)
  | [] => none
  | c :: t =>
    match matchRatingAt (c :: t) with
    | some r => some r
    | none => searchRating t

/-- Model of Python's `str(v / 2.0)` for an integer `v`: a half-integer
float prints as its integer part followed by `.0` or `.5`. -/
def halfStr (v : Int) : String :=
  (if v < 0 then "-" else "") ++ toString (v.natAbs / 2) ++
    (if v.natAbs % 2 = 0 then ".0" else ".5")

/-- An HTML element: tag name, attributes, the (multi-valued) class
attribute as parsed by BeautifulSoup, directly contained text, and child
elements. -/
inductive Node where
  | elem (tag : String) (attrs : List (String × String)) (classes : List String)
         (text : String) (children : List Node)

def Node.tag : Node → String
  | .elem t _ _ _ _ => t

def Node.attrs : Node → List (String × String)
  | .elem _ a _ _ _ => a

def Node.classes : Node → List String
  | .elem _ _ c _ _ => c

def Node.text : Node → String
  | .elem _ _ _ x _ => x

def Node.children : Node → List Node
  | .elem _ _ _ _ cs => cs

/-- Attribute lookup: models BeautifulSoup's `node['k']` / `node.get('k')`. -/
def Node.getAttr (n : Node) (k : String) : Option String :=
  (n.attrs.find? (fun p => p.1 == k)).map (fun p => p.2)

/-- Models `node.get('k', d)`. -/
def Node.getAttrD (n : Node) (k d : String) : String := (n.getAttr k).getD d

/-- Models the `attrs={'k': True}` filter: the attribute is present. -/
def Node.hasAttr (n : Node) (k : String) : Bool := (n.getAttr k).isSome

/-- Concatenated text of an element and its descendants: models
BeautifulSoup's `.text` / `.get_text()`. -/
def getText : Node → String
  | .elem _ _ _ x cs => x ++ String.join (cs.attach.map (fun m => getText m.1))
termination_by n => sizeOf n
decreasing_by
  have h := List.sizeOf_lt_of_mem m.2
  simp only [Node.elem.sizeOf_spec]
  omega

/-- Concatenated text with each contained string stripped: models
`.get_text(strip=True)`. -/
def getTextStrip : Node → String
  | .elem _ _ _ x cs =>
    pyStrip x ++ String.join (cs.attach.map (fun m => getTextStrip m.1))
termination_by n => sizeOf n
decreasing_by
  have h := List.sizeOf_lt_of_mem m.2
  simp only [Node.elem.sizeOf_spec]
  omega

/-- A node located inside a document, carrying the chain of its proper
ancestors, innermost first.  BeautifulSoup navigates upward through
parent pointers; the explicit chain plays that role here. -/
structure Loc where
  node : Node
  ancestors : List Node

/-- All nodes of the subtree rooted at a node, in document (pre-)order,
each with its ancestor chain (`anc` being the ancestors of the root). -/
def locsOf (anc : List Node) : Node → List Loc
  | .elem t a c x cs =>
    ⟨.elem t a c x cs, anc⟩ ::
      (cs.attach.map (fun m => locsOf (Node.elem t a c x cs :: anc) m.1)).flatten
termination_by n => sizeOf n
decreasing_by
  have h := List.sizeOf_lt_of_mem m.2
  simp only [Node.elem.sizeOf_spec]
  omega

/-- Located descendants of a document root, in document order:
the domain BeautifulSoup's `find` / `find_all` search over. -/
def descendantLocs (root : Node) : List Loc :=
  (root.children.map (locsOf [root])).flatten

/-- Descendants of a node, in document order. -/
def descendants (root : Node) : List Node :=
  (descendantLocs root).map (fun l => l.node)

/-- Models `root.find(...)` with the query compiled to a predicate. -/
def bsFind (root : Node) (p : Node → Bool) : Option Node :=
  (descendants root).find? p

/-- Models `root.find_all(...)` with the query compiled to a predicate. -/
def bsFindAll (root : Node) (p : Node → Bool) : List Node :=
  (descendants root).filter p

/-- `find_all` variant keeping each hit's ancestor chain. -/
def bsFindAllLocs (root : Node) (p : Node → Bool) : List Loc :=
  (descendantLocs root).filter (fun l => p l.node)

/-- Models `node.find_parent('li')`: the nearest enclosing ancestor with
the given tag. -/
def findParentTag (l : Loc) (t : String) : Option Node :=
  l.ancestors.find? (fun a => a.tag == t)

/-- An HTTP response: status code and parsed body
(`BeautifulSoup(response.content, 'html.parser')`). -/
structure Response where
  status : Nat
  doc : Node

/-- Network model: `none` is a transport-level exception raised by
`requests.get` (timeout, connection error). -/
def Net := String → Option Response

def base_url : String := "https://letterboxd.com"

/-- `get_page`, instrumented with the list of GET attempts it issues:
one `requests.get` with `raise_for_status`, no retry loop.
`raise_for_status` raises exactly for statuses in `[400, 600)`; the
`except requests.exceptions.RequestException` clause turns any raise
into a `None` return. -/
def get_pageT (net : Net) (url : String) : Option Node × List String :=
  (match net url with
   | none => none
   | some r => if 400 ≤ r.status ∧ r.status < 600 then none else some r.doc,
   [url])

/-- `LetterboxdScraper.get_page`. -/
def get_page (net : Net) (url : String) : Option Node :=
  (get_pageT net url).1

/-- Query for `soup.find('div', class_='pagination')`. -/
def pagPred (n : Node) : Bool :=
  n.tag == "div" && n.classes.contains "pagination"

/-- Query for `pagination.find_all('li', class_='paginate-page')`. -/
def pageLinkPred (n : Node) : Bool :=
  n.tag == "li" && n.classes.contains "paginate-page"

/-- First-page URL of a section, as built by `get_num_pages`. -/
def sectionUrl (username sec : String) : String :=
  if sec = "likes/films" then s!"{base_url}/{username}/likes/films/"
  else s!"{base_url}/{username}/{sec}/"

/-- `LetterboxdScraper.get_num_pages`. -/
def get_num_pages (net : Net) (username sec : String) : Int :=
  match get_page net (sectionUrl username sec) with
  | none => 1
  | some soup =>
    match bsFind soup pagPred with
    | none => 1
    | some pagination =>
      match (bsFindAll pagination pageLinkPred).getLast? with
      | none => 1
      | some l =>
        match pyInt (pyStrip (getText l)) with
        | some v => v
        | none => 1

/-- `href` attribute present and matching `re.compile(pat)` for the
plain substring patterns the code uses. -/
def hrefContains (n : Node) (pat : String) : Bool :=
  match n.getAttr "href" with
  | some h => strContains h pat
  | none => false

/-- Query for `soup.find('h1', class_='headline-1')`. -/
def titlePred (n : Node) : Bool :=
  n.tag == "h1" && n.classes.contains "headline-1"

/-- Query for `soup.find('small', class_='number')`. -/
def yearPred (n : Node) : Bool :=
  n.tag == "small" && n.classes.contains "number"

/-- Query for `soup.find_all('a', href=re.compile(r'/films/genre/'))`. -/
def genrePred (n : Node) : Bool :=
  n.tag == "a" && hrefContains n "/films/genre/"

/-- Query for `soup.find('meta', attrs={'name': 'twitter:data2'})`. -/
def metaPred (n : Node) : Bool :=
  n.tag == "meta" && n.getAttr "name" == some "twitter:data2"

/-- Query for `soup.find('a', href=re.compile(r'rating-histogram'))`. -/
def histPred (n : Node) : Bool :=
  n.tag == "a" && hrefContains n "rating-histogram"

/-- Query for `soup.find('a', class_='has-icon', href=re.compile(r'/fans/'))`. -/
def fansPred (n : Node) : Bool :=
  n.tag == "a" && n.classes.contains "has-icon" && hrefContains n "/fans/"

/-- The non-breaking space (`'\xa0'`) normalized away from titles. -/
def nbspChar : Char := Char.ofNat 160

/-- The fields extracted from a film's detail page. -/
structure Details where
  movie_name : String
  year : String
  genres : String
  vote_average : String
  vote_count : String
  popularity : String
  deriving Repr, DecidableEq

/-- The field extractions of `get_movie_details` on a fetched page:
each field is extracted independently with its own default. -/
def parseDetails (soup : Node) : Details :=
  let movie_name :=
    match bsFind soup titlePred with
    | some t => pyReplaceChar nbspChar ' ' (getTextStrip t)
    | none => "N/A"
  let year :=
    match bsFind soup yearPred with
    | some y => pyStrip (getText y)
    | none => "N/A"
  let genre_links := bsFindAll soup genrePred
  let genres :=
    if genre_links.isEmpty then "N/A"
    else String.intercalate ", " (genre_links.map (fun g => pyStrip (getText g)))
  let vote_average :=
    match bsFind soup metaPred with
    | some m =>
      match searchRating (m.getAttrD "content" "").data with
      | some run => String.mk run
      | none => "N/A"
    | none => "N/A"
  let vote_count :=
    match bsFind soup histPred with
    | some h =>
      match firstRun isDigitComma (getTextStrip h).data with
      | some run => String.mk (run.filter (fun c => c ≠ ','))
      | none => "N/A"
    | none => "N/A"
  let popularity :=
    match bsFind soup fansPred with
    | some f =>
      match firstRun isDigitComma (getTextStrip f).data with
      | some run => String.mk (run.filter (fun c => c ≠ ','))
      | none => "0"
    | none => "0"
  ⟨movie_name, year, genres, vote_average, vote_count, popularity⟩

/-- `LetterboxdScraper.get_movie_details`: fetch, then parse; `none`
only when the fetch failed (the surrounding `try`/`except` has no other
raise site in this model, every fallible step being an `Option` match). -/
def get_movie_details (net : Net) (movie_url : String) : Option Details :=
  match get_page net movie_url with
  | none => none
  | some soup => some (parseDetails soup)

/-- Query for `parent.find('span', class_=re.compile(r'rated-'))`:
a class-attribute regex is matched against each individual class. -/
def ratedSpanPred (n : Node) : Bool :=
  n.tag == "span" && n.classes.any (fun c => strContains c "rated-")

/-- The `for cls in classes` loop of `extract_user_rating`: the first
class starting with `rated-` whose segment after the first `-` parses as
an integer yields that integer; `int` failures are swallowed and the
loop continues. -/
def ratedClassValue : List String → Option Int
  | [] => none
  | cls :: rest =>
    if cls.startsWith "rated-" then
      match pyInt ((cls.splitOn "-").getD 1 "") with
      | some v => some v
      | none => ratedClassValue rest
    else ratedClassValue rest

/-- `LetterboxdScraper.extract_user_rating`, on a located poster
element. -/
def extract_user_rating (l : Loc) : String :=
  match findParentTag l "li" with
  | none => "Not Rated"
  | some parent =>
    match bsFind parent ratedSpanPred with
    | none => "Not Rated"
    | some sp =>
      match ratedClassValue sp.classes with
      | some v => halfStr v
      | none => "Not Rated"

/-- One accumulated record (one CSV row). -/
structure MovieData where
  movie_id : String
  username : String
  movie_name : String
  year : String
  genres : String
  rating : String
  popularity : String
  vote_average : String
  vote_count : String
  deriving Repr, DecidableEq

/-- `movie_slug = target_link.strip('/').split('/')[-1]`. -/
def slugOf (link : String) : String :=
  ((stripChar '/' link).splitOn "/").getLastD ""

/-- Detail-page URL: `f"{self.base_url}/film/{movie_slug}/"`. -/
def detailUrl (slug : String) : String := s!"{base_url}/film/{slug}/"

/-- Query for the listing items:
`soup.find_all('div', class_='react-component', attrs={'data-target-link': True})`. -/
def itemPred (n : Node) : Bool :=
  n.tag == "div" && n.classes.contains "react-component" &&
    n.hasAttr "data-target-link"

/-- The located film-reference components of one listing page. -/
def listingItems (soup : Node) : List Loc :=
  bsFindAllLocs soup itemPred

/-- The per-item body of `scrape_section`'s inner loop, instrumented
with the list of detail-page URLs it fetches: discard items without a
film target link, skip slugs already present in `movies_data`, otherwise
fetch details and, when they were obtained, append the merged record. -/
def processItemT (net : Net) (username : String) (st : List MovieData)
    (l : Loc) : List MovieData × List String :=
  let target_link := l.node.getAttrD "data-target-link" ""
  if target_link = "" || !(strContains target_link "/film/") then (st, [])
  else
    let movie_slug := slugOf target_link
    if st.any (fun m => m.movie_id == movie_slug) then (st, [])
    else
      let movie_url := detailUrl movie_slug
      let user_rating := extract_user_rating l
      match get_movie_details net movie_url with
      | some d =>
        (st ++ [⟨movie_slug, username, d.movie_name, d.year, d.genres,
                 user_rating, d.popularity, d.vote_average, d.vote_count⟩],
         [movie_url])
      | none => (st, [movie_url])

/-- The per-item body, state component only. -/
def processItem (net : Net) (username : String) (st : List MovieData)
    (l : Loc) : List MovieData :=
  (processItemT net username st l).1

/-- Listing-page URL for a given page number, as built inside
`scrape_section`'s page loop. -/
def pageUrl (username sec : String) (page : Nat) : String :=
  if sec = "likes/films" then
    s!"{base_url}/{username}/likes/films/page/{page}/"
  else s!"{base_url}/{username}/{sec}/page/{page}/"

/-- One iteration of `scrape_section`'s page loop: a failed fetch or a
page without items leaves the state unchanged, otherwise every item is
processed in document order. -/
def processPage (net : Net) (username sec : String)
    (st : List MovieData) (page : Nat) : List MovieData :=
  match get_page net (pageUrl username sec page) with
  | none => st
  | some soup => (listingItems soup).foldl (processItem net username) st

/-- `if max_pages: total_pages = min(total_pages, max_pages)` —
a `None` (or falsy `0`) cap leaves the total unchanged. -/
def capPages (total : Int) (max_pages : Option Nat) : Int :=
  match max_pages with
  | some m => if m ≠ 0 then min total (m : Int) else total
  | none => total

/-- `range(1, total_pages + 1)` (empty when the total is below 1). -/
def pagesList (total : Int) : List Nat :=
  (List.range total.toNat).map (fun i => i + 1)

/-- `LetterboxdScraper.scrape_section`, with `st` the `movies_data`
accumulator held by the instance; returns `self.movies_data`. -/
def scrape_section (net : Net) (username : String) (st : List MovieData)
    (sec : String) (max_pages : Option Nat) : List MovieData :=
  let total := capPages (get_num_pages net username sec) max_pages
  (pagesList total).foldl (processPage net username sec) st

/-- Outcome of running one section: normal completion with the new
accumulator, an exception caught by the `except Exception` clause, or a
`KeyboardInterrupt`. -/
inductive SecOutcome where
  | ok (st : List MovieData)
  | exn
  | interrupt

/-- Abstract section scraper.  The embedded `scrape_section` is total,
while the Python one can raise (library errors, user interrupts coming
from outside the pure pipeline); the orchestrator is therefore verified
over any outcome-valued runner. -/
def SectionRunner := String → List MovieData → SecOutcome

/-- The runner induced by the embedded (exception-free) `scrape_section`. -/
def pureRunner (net : Net) (username : String) (max_pages : Option Nat) :
    SectionRunner :=
  fun sec st => .ok (scrape_section net username st sec max_pages)

/-- `LetterboxdScraper.scrape_all_sections`'s loop: an exception
abandons the section and continues, a `KeyboardInterrupt` breaks the
loop; `self.movies_data` is returned in every case. -/
def scrape_all_sections (run : SectionRunner) :
    List String → List MovieData → List MovieData
  | [], st => st
  | s :: rest, st =>
    match run s st with
    | .ok st2 => scrape_all_sections run rest st2
    | .exn => scrape_all_sections run rest st
    | .interrupt => st

/-- The default section list of `scrape_all_sections`. -/
def defaultSections : List String :=
  ["films", "reviews", "diary", "watchlist", "likes/films"]

/-- The fixed CSV schema (`fieldnames` in `save_to_csv`). -/
def fieldnames : List String :=
  ["movie_id", "username", "movie_name", "year", "genres",
   "rating", "popularity", "vote_average", "vote_count"]

/-- One CSV data row: the record's values in `fieldnames` order, as
`csv.DictWriter.writerows` emits them. -/
def rowOf (m : MovieData) : List String :=
  [m.movie_id, m.username, m.movie_name, m.year, m.genres,
   m.rating, m.popularity, m.vote_average, m.vote_count]

/-- `LetterboxdScraper.save_to_csv`, abstracting the written file as its
list of rows: `none` models the early return on an empty accumulator. -/
def save_to_csv (movies : List MovieData) : Option (List (List String)) :=
  if movies.isEmpty then none
  else some (fieldnames :: movies.map rowOf)

/-! Concrete fixtures used by witness and counterexample theorems. -/

/-- A document with no elements below the root. -/
def emptyDoc : Node := .elem "html" [] [] "" []

/-- A network where every request raises a transport error. -/
def netDown : Net := fun _ => none

/-- A network serving the same document, with status 200, for every URL. -/
def okNet (d : Node) : Net := fun _ => some ⟨200, d⟩

/-- A pagination control whose last (only) page link reads `0`. -/
def soupZero : Node :=
  .elem "html" [] [] ""
    [.elem "div" [] ["pagination"] ""
      [.elem "li" [] ["paginate-page"] "0" []]]

/-- A located film-reference component with a film target link. -/
def posterLoc : Loc :=
  ⟨.elem "div" [("data-target-link", "/film/the-matrix/")]
     ["react-component"] "" [], []⟩

/-- A located component carrying no target link at all. -/
def bareLoc : Loc := ⟨emptyDoc, []⟩

/-- A sample record. -/
def recX : MovieData :=
  ⟨"slug-x", "u", "X", "2020", "Drama", "Not Rated", "0", "N/A", "N/A"⟩

/-- A runner whose first section raises and whose others append `recX`. -/
def runnerExnA : SectionRunner :=
  fun s st => if s = "A" then .exn else .ok (st ++ [recX])

/-- A runner whose first section is interrupted. -/
def runnerIntA : SectionRunner :=
  fun s st => if s = "A" then .interrupt else .ok (st ++ [recX])

/-! Helper lemmas about the per-item step and the accumulation folds. -/

/-- Every per-item step either leaves the accumulator unchanged or
appends one record built from successfully fetched details, whose slug
was not yet present. -/
theorem processItem_shape (net : Net) (u : String) (st : List MovieData)
    (l : Loc) :
    processItem net u st l = st ∨
    ∃ d : Details,
      st.any (fun m =>
        m.movie_id == slugOf (l.node.getAttrD "data-target-link" "")) = false ∧
      get_movie_details net
        (detailUrl (slugOf (l.node.getAttrD "data-target-link" ""))) = some d ∧
      processItem net u st l =
        st ++ [⟨slugOf (l.node.getAttrD "data-target-link" ""), u,
                d.movie_name, d.year, d.genres, extract_user_rating l,
                d.popularity, d.vote_average, d.vote_count⟩] := by
  unfold processItem processItemT
  simp only
  split
  · exact Or.inl rfl
  · split
    · exact Or.inl rfl
    · rename_i hdup
      split
      · rename_i d hd
        exact Or.inr ⟨d, Bool.eq_false_iff.mpr hdup, hd, rfl⟩
      · exact Or.inl rfl

/-- A per-item step on an already-seen slug does nothing and issues no
detail fetch. -/
theorem processItemT_dup (net : Net) (u : String) (st : List MovieData)
    (l : Loc)
    (h : st.any (fun m =>
      m.movie_id == slugOf (l.node.getAttrD "data-target-link" "")) = true) :
    processItemT net u st l = (st, []) := by
  unfold processItemT
  simp only
  split
  · rfl
  · simp [h]

/-- Folding a step that only ever appends, over any list, only appends. -/
theorem foldl_appends {α : Type} (f : List MovieData → α → List MovieData)
    (hf : ∀ st a, ∃ l, f st a = st ++ l) :
    ∀ (xs : List α) (st : List MovieData), ∃ l, xs.foldl f st = st ++ l := by
  intro xs
  induction xs with
  | nil => exact fun st => ⟨[], by simp⟩
  | cons a xs ih =>
    intro st
    obtain ⟨l1, h1⟩ := hf st a
    obtain ⟨l2, h2⟩ := ih (f st a)
    exact ⟨l1 ++ l2, by rw [List.foldl_cons, h2, h1, List.append_assoc]⟩

/-- The slugs of the accumulator are pairwise distinct. -/
def NodupIds (st : List MovieData) : Prop :=
  (st.map (fun m => m.movie_id)).Nodup

/-- The per-item step preserves slug distinctness. -/
theorem processItem_nodup (net : Net) (u : String) (st : List MovieData)
    (l : Loc) (h : NodupIds st) : NodupIds (processItem net u st l) := by
  rcases processItem_shape net u st l with heq | ⟨d, hany, _, heq⟩
  · rw [heq]; exact h
  · rw [heq]
    unfold NodupIds at *
    rw [List.map_append, List.nodup_append]
    refine ⟨h, List.nodup_singleton _, ?_⟩
    intro x hx hy
    rcases List.mem_map.mp hx with ⟨m, hm, hxm⟩
    rw [List.any_eq_false] at hany
    have hne := hany m hm
    simp only [beq_iff_eq] at hne
    simp only [List.map_cons, List.map_nil, List.mem_singleton] at hy
    exact hne (hxm.trans hy)

/-- Folding a slug-distinctness-preserving step preserves it. -/
theorem foldl_nodup {α : Type} (f : List MovieData → α → List MovieData)
    (hf : ∀ st a, NodupIds st → NodupIds (f st a)) :
    ∀ (xs : List α) (st : List MovieData),
      NodupIds st → NodupIds (xs.foldl f st) := by
  intro xs
  induction xs with
  | nil => exact fun st h => h
  | cons a xs ih => exact fun st h => ih (f st a) (hf st a h)

/-- One page of the section loop only appends records. -/
theorem processPage_appends (net : Net) (u sec : String)
    (st : List MovieData) (page : Nat) :
    ∃ l, processPage net u sec st page = st ++ l := by
  unfold processPage
  split
  · exact ⟨[], by simp⟩
  · refine foldl_appends _ (fun st2 it => ?_) _ _
    rcases processItem_shape net u st2 it with heq | ⟨d, _, _, heq⟩
    · exact ⟨[], by simp [heq]⟩
    · exact ⟨_, heq⟩

/-- One page of the section loop preserves slug distinctness. -/
theorem processPage_nodup (net : Net) (u sec : String)
    (st : List MovieData) (page : Nat) (h : NodupIds st) :
    NodupIds (processPage net u sec st page) := by
  unfold processPage
  split
  · exact h
  · exact foldl_nodup _ (fun st2 it => processItem_nodup net u st2 it) _ _ h

/-- A whole section scrape only appends records. -/
theorem scrape_section_appends (net : Net) (u : String) (st : List MovieData)
    (sec : String) (mp : Option Nat) :
    ∃ l, scrape_section net u st sec mp = st ++ l := by
  unfold scrape_section
  exact foldl_appends _ (fun st2 p => processPage_appends net u sec st2 p) _ _

/-- A whole section scrape preserves slug distinctness. -/
theorem scrape_section_nodup (net : Net) (u : String) (st : List MovieData)
    (sec : String) (mp : Option Nat) (h : NodupIds st) :
    NodupIds (scrape_section net u st sec mp) := by
  unfold scrape_section
  exact foldl_nodup _ (fun st2 p => processPage_nodup net u sec st2 p) _ _ h

/-- A whole multi-section run over the pure runner preserves slug
distinctness. -/
theorem scrape_all_nodup (net : Net) (u : String) (mp : Option Nat) :
    ∀ (sections : List String) (st : List MovieData), NodupIds st →
      NodupIds (scrape_all_sections (pureRunner net u mp) sections st) := by
  intro sections
  induction sections with
  | nil => exact fun st h => h
  | cons s rest ih =>
    intro st h
    show NodupIds (match pureRunner net u mp s st with
      | .ok st2 => scrape_all_sections (pureRunner net u mp) rest st2
      | .exn => scrape_all_sections (pureRunner net u mp) rest st
      | .interrupt => st)
    exact ih _ (scrape_section_nodup net u st s mp h)

/-! Claim theorems. -/

/-- C1: in every run, the accumulated ResultSet never holds two records
with the same slug; a section scrape (and a whole multi-section run)
starting from a slug-distinct accumulator only appends, keeping every
first-seen record in place, and a per-item step on an already-present
slug leaves the accumulator's size and content unchanged. -/
theorem C1_dedup_invariant (net : Net) (u : String) (st : List MovieData)
    (sec : String) (mp : Option Nat) (sections : List String)
    (hnd : (st.map (fun m => m.movie_id)).Nodup) :
    (∃ l, scrape_section net u st sec mp = st ++ l) ∧
    ((scrape_section net u st sec mp).map (fun m => m.movie_id)).Nodup ∧
    ((scrape_all_sections (pureRunner net u mp) sections st).map
       (fun m => m.movie_id)).Nodup ∧
    (∀ l : Loc,
       st.any (fun m =>
         m.movie_id == slugOf (l.node.getAttrD "data-target-link" "")) = true →
       processItem net u st l = st) := by
  refine ⟨scrape_section_appends net u st sec mp,
          scrape_section_nodup net u st sec mp hnd,
          scrape_all_nodup net u mp sections st hnd,
          fun l h => ?_⟩
  have := processItemT_dup net u st l h
  unfold processItem
  rw [this]

/-- Witness for C1, run on a network that is entirely down, from the
empty accumulator of a fresh scraper. -/
theorem C1_dedup_invariant_witness :
    (([] : List MovieData).map (fun m => m.movie_id)).Nodup ∧
    ((∃ l, scrape_section netDown "u" [] "films" none = [] ++ l) ∧
     ((scrape_section netDown "u" [] "films" none).map
        (fun m => m.movie_id)).Nodup ∧
     ((scrape_all_sections (pureRunner netDown "u" none) ["films"] []).map
        (fun m => m.movie_id)).Nodup ∧
     (∀ l : Loc,
        ([] : List MovieData).any (fun m =>
          m.movie_id == slugOf (l.node.getAttrD "data-target-link" "")) = true →
        processItem netDown "u" [] l = [])) :=
  ⟨by simp, C1_dedup_invariant netDown "u" [] "films" none ["films"] (by simp)⟩

/-- C9: a section scrape returns the whole run-accumulated ResultSet —
the records already accumulated (for instance by previously scraped
sections) stay at the front, and whatever the section found is appended
after them. -/
theorem C9_returns_run_accumulator (net : Net) (u : String)
    (st : List MovieData) (sec : String) (mp : Option Nat) :
    ∃ l, scrape_section net u st sec mp = st ++ l :=
  scrape_section_appends net u st sec mp

/-- C10: when detail extraction fails for a fresh slug, the per-item
step fetches the detail page, appends nothing and leaves the
accumulator unchanged, so a later encounter of the same slug fetches
again (same fetch trace) instead of being skipped — unlike a slug that
was recorded, whose encounters issue no fetch at all. -/
theorem C10_failed_details_forgotten (net : Net) (u : String)
    (st : List MovieData) (l : Loc)
    (hlink : l.node.getAttrD "data-target-link" "" ≠ "")
    (hfilm : strContains (l.node.getAttrD "data-target-link" "") "/film/" = true)
    (hnew : st.any (fun m =>
      m.movie_id == slugOf (l.node.getAttrD "data-target-link" "")) = false)
    (hfail : get_movie_details net
      (detailUrl (slugOf (l.node.getAttrD "data-target-link" ""))) = none) :
    processItemT net u st l =
      (st, [detailUrl (slugOf (l.node.getAttrD "data-target-link" ""))]) ∧
    processItemT net u (processItemT net u st l).1 l =
      (st, [detailUrl (slugOf (l.node.getAttrD "data-target-link" ""))]) ∧
    (∀ st2 : List MovieData,
       st2.any (fun m =>
         m.movie_id == slugOf (l.node.getAttrD "data-target-link" "")) = true →
       processItemT net u st2 l = (st2, [])) := by
  have hmain : processItemT net u st l =
      (st, [detailUrl (slugOf (l.node.getAttrD "data-target-link" ""))]) := by
    unfold processItemT
    simp only [hlink, hfilm, hnew, hfail]
    simp
  exact ⟨hmain, by rw [hmain]; exact hmain,
         fun st2 h2 => processItemT_dup net u st2 l h2⟩

/-- Witness for C10: an all-down network, so every detail fetch fails,
on a fresh film-reference component. -/
theorem C10_failed_details_forgotten_witness :
    (posterLoc.node.getAttrD "data-target-link" "" ≠ "" ∧
     strContains (posterLoc.node.getAttrD "data-target-link" "") "/film/" = true ∧
     ([] : List MovieData).any (fun m =>
       m.movie_id == slugOf (posterLoc.node.getAttrD "data-target-link" "")) = false ∧
     get_movie_details netDown
       (detailUrl (slugOf (posterLoc.node.getAttrD "data-target-link" ""))) = none) ∧
    processItemT netDown "u" [] posterLoc =
      ([], [detailUrl (slugOf (posterLoc.node.getAttrD "data-target-link" ""))]) ∧
    processItemT netDown "u" (processItemT netDown "u" [] posterLoc).1 posterLoc =
      ([], [detailUrl (slugOf (posterLoc.node.getAttrD "data-target-link" ""))]) := by
  have h := C10_failed_details_forgotten netDown "u" [] posterLoc
    (by decide)
    (by decide)
    (by simp)
    (by rfl)
  exact ⟨⟨by decide, by decide, by simp, by rfl⟩,
         h.1, h.2.1⟩

/-- C2: rating extraction is total (it always returns a string, never an
exception): it returns the "Not Rated" marker unless the nearest
enclosing list-item ancestor yields a rating-indicator span whose class
list encodes an integer token `v`, in which case it returns the decimal
rendering of `v / 2.0` — and token value `7` renders as `"3.5"`. -/
theorem C2_rating_decode :
    (∀ l : Loc,
       extract_user_rating l = "Not Rated" ∨
       ∃ (v : Int) (li sp : Node),
         findParentTag l "li" = some li ∧
         sp ∈ descendants li ∧
         ratedSpanPred sp = true ∧
         ratedClassValue sp.classes = some v ∧
         extract_user_rating l = halfStr v) ∧
    halfStr 7 = "3.5" ∧ halfStr 4 = "2.0" := by
  refine ⟨fun l => ?_, by decide, by decide⟩
  cases hp : findParentTag l "li" with
  | none => exact Or.inl (by simp [extract_user_rating, hp])
  | some parent =>
    cases hs : bsFind parent ratedSpanPred with
    | none => exact Or.inl (by simp [extract_user_rating, hp, hs])
    | some sp =>
      cases hv : ratedClassValue sp.classes with
      | none => exact Or.inl (by simp [extract_user_rating, hp, hs, hv])
      | some v =>
        refine Or.inr ⟨v, parent, sp, rfl, ?_, ?_, hv,
          by simp [extract_user_rating, hp, hs, hv]⟩
        · exact List.mem_of_find?_eq_some hs
        · exact List.find?_some hs

/-- C3 as stated is false on the code: a pagination control whose last
page-number link reads `0` makes `get_num_pages` return `0`, which is
not at least `1`. -/
theorem C3_counterexample :
    get_num_pages (okNet soupZero) "u" "films" = 0 ∧
    ¬ (1 ≤ get_num_pages (okNet soupZero) "u" "films") := by
  have h : get_num_pages (okNet soupZero) "u" "films" = 0 := by
    simp [get_num_pages, get_page, get_pageT, okNet, soupZero, bsFind,
      bsFindAll, descendants, descendantLocs, locsOf, pagPred, pageLinkPred,
      getText, Node.children, Node.tag, Node.classes]
    decide
  exact ⟨h, by rw [h]; decide⟩

/-- C3, amended: page-count resolution returns the parsed integer value
of the last page-number link inside the pagination control when the
page fetches and that value parses (so it is at least 1 exactly when
that parsed value is), and returns exactly 1 when the fetch fails, the
control is absent, the link sequence is empty, or parsing fails. -/
theorem C3_page_count (net : Net) (u sec : String) :
    (∃ (soup pagination l : Node) (v : Int),
        get_page net (sectionUrl u sec) = some soup ∧
        bsFind soup pagPred = some pagination ∧
        (bsFindAll pagination pageLinkPred).getLast? = some l ∧
        pyInt (pyStrip (getText l)) = some v ∧
        get_num_pages net u sec = v) ∨
    get_num_pages net u sec = 1 := by
  cases hs : get_page net (sectionUrl u sec) with
  | none => exact Or.inr (by simp [get_num_pages, hs])
  | some soup =>
    cases hpag : bsFind soup pagPred with
    | none => exact Or.inr (by simp [get_num_pages, hs, hpag])
    | some pagination =>
      cases hl : (bsFindAll pagination pageLinkPred).getLast? with
      | none => exact Or.inr (by simp [get_num_pages, hs, hpag, hl])
      | some l =>
        cases hv : pyInt (pyStrip (getText l)) with
        | none => exact Or.inr (by simp [get_num_pages, hs, hpag, hl, hv])
        | some v =>
          exact Or.inl ⟨soup, pagination, l, v, rfl, hpag, hl, hv,
            by simp [get_num_pages, hs, hpag, hl, hv]⟩

/-- C4: detail extraction is empty exactly when the fetch failed; on
every fetched page it yields a record, and each field whose markup
feature is absent independently takes its documented default — `'N/A'`
for title, year, genres, aggregate rating average and vote count, and
`'0'` (not `'N/A'`) for popularity. -/
theorem C4_detail_defaults (net : Net) (url : String) :
    (get_movie_details net url = none ↔ get_page net url = none) ∧
    (∀ soup, get_page net url = some soup →
       get_movie_details net url = some (parseDetails soup) ∧
       (bsFind soup titlePred = none → (parseDetails soup).movie_name = "N/A") ∧
       (bsFind soup yearPred = none → (parseDetails soup).year = "N/A") ∧
       (bsFindAll soup genrePred = [] → (parseDetails soup).genres = "N/A") ∧
       (bsFind soup metaPred = none → (parseDetails soup).vote_average = "N/A") ∧
       (bsFind soup histPred = none → (parseDetails soup).vote_count = "N/A") ∧
       (bsFind soup fansPred = none → (parseDetails soup).popularity = "0")) := by
  constructor
  · cases hp : get_page net url with
    | none => simp [get_movie_details, hp]
    | some soup => simp [get_movie_details, hp]
  · intro soup hp
    refine ⟨by simp [get_movie_details, hp], fun h => ?_, fun h => ?_, fun h => ?_,
            fun h => ?_, fun h => ?_, fun h => ?_⟩ <;>
      simp [parseDetails, h]

/-- Witness for C4: a fetched page carrying none of the expected markup
features yields a record whose every field is its default. -/
theorem C4_detail_defaults_witness :
    get_page (okNet emptyDoc) "url" = some emptyDoc ∧
    (bsFind emptyDoc titlePred = none ∧ bsFind emptyDoc yearPred = none ∧
     bsFindAll emptyDoc genrePred = [] ∧ bsFind emptyDoc metaPred = none ∧
     bsFind emptyDoc histPred = none ∧ bsFind emptyDoc fansPred = none) ∧
    get_movie_details (okNet emptyDoc) "url" = some (parseDetails emptyDoc) ∧
    (parseDetails emptyDoc).movie_name = "N/A" ∧
    (parseDetails emptyDoc).year = "N/A" ∧
    (parseDetails emptyDoc).genres = "N/A" ∧
    (parseDetails emptyDoc).vote_average = "N/A" ∧
    (parseDetails emptyDoc).vote_count = "N/A" ∧
    (parseDetails emptyDoc).popularity = "0" := by
  have habs : bsFind emptyDoc titlePred = none ∧ bsFind emptyDoc yearPred = none ∧
      bsFindAll emptyDoc genrePred = [] ∧ bsFind emptyDoc metaPred = none ∧
      bsFind emptyDoc histPred = none ∧ bsFind emptyDoc fansPred = none := by
    refine ⟨?_, ?_, ?_, ?_, ?_, ?_⟩ <;>
      simp [bsFind, bsFindAll, descendants, descendantLocs, emptyDoc, Node.children]
  obtain ⟨hmd, h1, h2, h3, h4, h5, h6⟩ :=
    (C4_detail_defaults (okNet emptyDoc) "url").2 emptyDoc rfl
  exact ⟨rfl, habs, hmd, h1 habs.1, h2 habs.2.1, h3 habs.2.2.1,
         h4 habs.2.2.2.1, h5 habs.2.2.2.2.1, h6 habs.2.2.2.2.2⟩

/-- C5: exporting a non-empty ResultSet writes exactly the 9 documented
column names in the documented order as the header row, followed by one
row per record in accumulation order. -/
theorem C5_export_schema (movies : List MovieData) (h : movies ≠ []) :
    save_to_csv movies =
      some (["movie_id", "username", "movie_name", "year", "genres",
             "rating", "popularity", "vote_average", "vote_count"] ::
            movies.map rowOf) := by
  unfold save_to_csv
  rw [if_neg (by simp [h])]
  rfl

/-- Witness for C5 on a one-record ResultSet. -/
theorem C5_export_schema_witness :
    [recX] ≠ ([] : List MovieData) ∧
    save_to_csv [recX] =
      some (["movie_id", "username", "movie_name", "year", "genres",
             "rating", "popularity", "vote_average", "vote_count"] ::
            [recX].map rowOf) :=
  ⟨by simp, C5_export_schema [recX] (by simp)⟩

/-- C6: the per-item step discards a component whose target link is
absent (empty) or does not reference a film resource, and any record it
appends carries as identifier the final path segment of the target
link after stripping leading and trailing slashes (`slugOf`). -/
theorem C6_slug_extraction (net : Net) (u : String) (st : List MovieData)
    (l : Loc) :
    ((l.node.getAttrD "data-target-link" "" = "" ∨
      strContains (l.node.getAttrD "data-target-link" "") "/film/" = false) →
      processItem net u st l = st) ∧
    (∀ m : MovieData, processItem net u st l = st ++ [m] →
      m.movie_id = slugOf (l.node.getAttrD "data-target-link" "")) := by
  constructor
  · intro h
    rcases h with h | h <;> simp [processItem, processItemT, h]
  · intro m hm
    rcases processItem_shape net u st l with heq | ⟨d, _, _, heq⟩
    · rw [heq] at hm
      exact absurd (congrArg List.length hm) (by simp)
    · rw [heq] at hm
      have h2 := List.append_cancel_left hm
      simp only [List.cons.injEq, and_true] at h2
      rw [← h2]

/-- Witness for C6: a component with no target link is discarded. -/
theorem C6_slug_extraction_witness :
    bareLoc.node.getAttrD "data-target-link" "" = "" ∧
    processItem netDown "u" [] bareLoc = [] :=
  ⟨by decide,
   (C6_slug_extraction netDown "u" [] bareLoc).1 (Or.inl (by decide))⟩

/-- C7: an exception raised while scraping one section is caught and
the remaining sections still run (records they find end up in the
returned ResultSet), while a user interrupt stops the loop immediately
and returns what has been accumulated so far. -/
theorem C7_section_isolation (run : SectionRunner) (A B : String)
    (st stB : List MovieData) :
    (run A st = .exn → run B st = .ok stB →
       scrape_all_sections run [A, B] st = stB) ∧
    (∀ rest, run A st = .exn →
       scrape_all_sections run (A :: rest) st =
         scrape_all_sections run rest st) ∧
    (∀ rest, run A st = .interrupt →
       scrape_all_sections run (A :: rest) st = st) := by
  refine ⟨fun h1 h2 => ?_, fun rest h1 => ?_, fun rest h1 => ?_⟩
  · simp [scrape_all_sections, h1, h2]
  · simp [scrape_all_sections, h1]
  · simp [scrape_all_sections, h1]

/-- Witness for C7: with section `A` raising, section `B`'s record is
still collected; with `A` interrupted, the loop stops with the (empty)
accumulator. -/
theorem C7_section_isolation_witness :
    (runnerExnA "A" [] = .exn ∧ runnerExnA "B" [] = .ok [recX] ∧
     runnerIntA "A" [] = .interrupt) ∧
    scrape_all_sections runnerExnA ["A", "B"] [] = [recX] ∧
    scrape_all_sections runnerIntA ["A", "B"] [] = [] := by
  refine ⟨⟨rfl, rfl, rfl⟩, ?_, ?_⟩
  · exact (C7_section_isolation runnerExnA "A" "B" [] [recX]).1 rfl rfl
  · exact (C7_section_isolation runnerIntA "A" "B" [] []).2.2 ["B"] rfl

/-- C8: the page fetcher issues exactly one GET for the requested URL
(no retries); a transport exception or an error status in `[400, 600)`
yields the empty result rather than an exception, and a success status
yields the parsed document. -/
theorem C8_fetch_once (net : Net) (url : String) :
    (get_pageT net url).2 = [url] ∧
    (net url = none → get_page net url = none) ∧
    (∀ r : Response, net url = some r → 400 ≤ r.status → r.status < 600 →
       get_page net url = none) ∧
    (∀ r : Response, net url = some r → r.status < 400 →
       get_page net url = some r.doc) := by
  refine ⟨rfl, fun h => ?_, fun r h h4 h6 => ?_, fun r h h4 => ?_⟩
  · simp [get_page, get_pageT, h]
  · unfold get_page get_pageT
    rw [h]
    simp only
    rw [if_pos ⟨h4, h6⟩]
  · unfold get_page get_pageT
    rw [h]
    simp only
    rw [if_neg (fun hc => absurd hc.1 (by omega))]

/-- Witness for C8: a downed network yields the empty result from a
single attempt; a 200 response yields the parsed document. -/
theorem C8_fetch_once_witness :
    (netDown "x" = none ∧ okNet emptyDoc "x" = some ⟨200, emptyDoc⟩ ∧
     (200 : Nat) < 400) ∧
    (get_pageT netDown "x").2 = ["x"] ∧
    get_page netDown "x" = none ∧
    get_page (okNet emptyDoc) "x" = some emptyDoc := by
  refine ⟨⟨rfl, rfl, by omega⟩, (C8_fetch_once netDown "x").1,
          (C8_fetch_once netDown "x").2.1 rfl,
          (C8_fetch_once (okNet emptyDoc) "x").2.2.2 ⟨200, emptyDoc⟩ rfl (by decide)⟩
